import Mathlib

/-!
Shallow embedding of the Redpanda Connect license service
(`internal/license`, file `license_service.go`) and proofs of the
specification's claims about it.

Byte strings are modelled as `List Nat` (each element a byte value).
External library calls that are not part of this repository
(`pem.Decode`, `x509.ParsePKIXPublicKey`, `sha256.Sum256`,
`rsa.VerifyPKCS1v15`, `json.Unmarshal`) are supplied as parameters in an
`Ext` structure, so theorems quantify over their behaviour; the base64
standard decoding (`base64.StdEncoding.DecodeString`) is implemented
concretely because claims depend on which alphabet it accepts.
-/

namespace License

/-- The decoded entitlement record. The struct `RedpandaLicense` itself is
declared outside the provided source file; its four fields (version,
organization, type, expiry) are taken from the spec's data model and are
corroborated by the source's uses (`license.Type`, `license.Expiry`,
`license.Organization`, `Version`). Go's `int`/`int64` are modelled as `Int`.
The field `Type` is spelled `Type'` because `Type` is reserved in Lean. -/
structure RedpandaLicense where
  Version : Int
  Organization : String
  Type' : Int
  Expiry : Int
deriving DecidableEq, Repr

/-- Modelled from the spec: `RedpandaLicense.CheckExpiry` is not in the
provided source (only its call site is); the spec states it "fails with an
`Expired` condition when `expiry <= now`". `now` is passed explicitly. -/
def RedpandaLicense.CheckExpiry (l : RedpandaLicense) (now : Int) : Except Unit Unit :=
  if l.Expiry ≤ now then Except.error () else Except.ok ()

/-- Result of reading one file path, modelling `os.ReadFile`:
success with contents, a not-found error (`os.IsNotExist` holds), or any
other read error (permissions, I/O, ...). -/
inductive FileRes where
  | content (bs : List Nat)
  | notFound
  | otherErr
deriving DecidableEq, Repr

/-- The filesystem, as a map from paths to read results. -/
def FS : Type := String → FileRes

/-- Configuration of the license service (`Config` in the source).
`customPublicKeyPem` and `customDefaultLicenseFilepath` are the test-only
overrides. -/
structure Config where
  License : String
  LicenseFilepath : String
  customPublicKeyPem : List Nat
  customDefaultLicenseFilepath : String

/-- The fixed default license file path (`defaultLicenseFilepath` constant). -/
def defaultLicenseFilepathConst : String := "/etc/redpanda/redpanda.license"

/-- `Config.defaultLicenseFilepath` from the source: the test override when
non-empty, else the fixed default path. -/
def Config.defaultLicenseFilepath (c : Config) : String :=
  if c.customDefaultLicenseFilepath ≠ "" then c.customDefaultLicenseFilepath
  else defaultLicenseFilepathConst

/-- `Config.publicKeyPem` from the source: the test override when non-empty,
else the embedded `public_key.pem` bytes (`licensePublicKeyPem`), which are
passed in since the embedded file is not part of the source tree. -/
def Config.publicKeyPem (c : Config) (licensePublicKeyPem : List Nat) : List Nat :=
  if c.customPublicKeyPem.length > 0 then c.customPublicKeyPem
  else licensePublicKeyPem

/-- Byte string of a Go string conversion `[]byte(s)`. All credential and
key strings in scope are ASCII, for which the UTF-8 bytes are the code
points. -/
def strBytes (s : String) : List Nat := s.data.map Char.toNat

/-- A decoded PEM block (`pem.Block`); only its `Bytes` field is used. -/
structure PemBlock where
  bytes : List Nat

/-- An RSA public key value (`rsa.PublicKey`), kept abstract: modulus and
exponent. -/
structure RSAPub where
  n : Int
  e : Int

/-- Result of `x509.ParsePKIXPublicKey` followed by the type assertion:
either an RSA key or some other key type. -/
inductive ParsedKey where
  | rsa (k : RSAPub)
  | nonRSA

/-- The external library functions used by the service, supplied as
parameters: theorems about the service's control flow hold for every
behaviour of these collaborators. `embeddedPem` stands for the
`go:embed`-ed `public_key.pem` bytes. -/
structure Ext where
  embeddedPem : List Nat
  pemDecode : List Nat → Option PemBlock
  parsePKIX : List Nat → Except Unit ParsedKey
  sha256 : List Nat → List Nat
  rsaVerify : RSAPub → List Nat → List Nat → Bool
  jsonUnmarshal : List Nat → Option RedpandaLicense

/-- ASCII whitespace recognised by `bytes.TrimSpace` on the byte values
relevant here (space, TAB, LF, VT, FF, CR). -/
def isSpaceByte (b : Nat) : Bool :=
  b = 32 || b = 9 || b = 10 || b = 11 || b = 12 || b = 13

/-- `bytes.TrimSpace`: drop leading and trailing whitespace bytes. -/
def trimSpace (bs : List Nat) : List Nat :=
  ((bs.dropWhile isSpaceByte).reverse.dropWhile isSpaceByte).reverse

/-- `bytes.Split` with a one-byte separator: split into the (possibly
empty) chunks between occurrences of `sep`. -/
def splitOnByte (sep : Nat) : List Nat → List (List Nat)
  | [] => [[]]
  | b :: rest =>
    match splitOnByte sep rest with
    | [] => [[]]
    | cur :: done =>
      if b = sep then [] :: cur :: done else (b :: cur) :: done

/-- Value of one character in the standard base64 alphabet
(`A-Z`, `a-z`, `0-9`, `+`, `/`), none for anything else. -/
def b64Val (b : Nat) : Option Nat :=
  if 65 ≤ b ∧ b ≤ 90 then some (b - 65)
  else if 97 ≤ b ∧ b ≤ 122 then some (b - 97 + 26)
  else if 48 ≤ b ∧ b ≤ 57 then some (b - 48 + 52)
  else if b = 43 then some 62
  else if b = 47 then some 63
  else none

/-- Decode base64 in four-character quanta, with `=` padding allowed only
in the final quantum, as `base64.StdEncoding` does (non-strict: unused
trailing bits are ignored). -/
def b64DecodeGroups : List Nat → Option (List Nat)
  | [] => some []
  | c1 :: c2 :: c3 :: c4 :: rest =>
    match b64Val c1, b64Val c2 with
    | some v1, some v2 =>
      if c3 = 61 then
        if c4 = 61 ∧ rest = [] then some [v1 * 4 + v2 / 16] else none
      else
        match b64Val c3 with
        | some v3 =>
          if c4 = 61 then
            if rest = [] then some [v1 * 4 + v2 / 16, (v2 % 16) * 16 + v3 / 4]
            else none
          else
            match b64Val c4 with
            | some v4 =>
              match b64DecodeGroups rest with
              | some tl =>
                some ((v1 * 4 + v2 / 16) :: ((v2 % 16) * 16 + v3 / 4) ::
                      ((v3 % 4) * 64 + v4) :: tl)
              | none => none
            | none => none
        | none => none
    | _, _ => none
  | _ => none

/-- `base64.StdEncoding.DecodeString`: CR and LF bytes are skipped, the
rest must be whole four-character standard-alphabet quanta. -/
def base64StdDecode (bs : List Nat) : Option (List Nat) :=
  b64DecodeGroups (bs.filter (fun b => b ≠ 10 ∧ b ≠ 13))

/-- Error cases of `validateLicense`, one per distinct `return` with an
error in the source. -/
inductive VErr where
  | keyParse
  | keyNotRSA
  | malformedSplit
  | malformedDataB64
  | malformedSigB64
  | sigInvalid
  | decodeJSON
deriving DecidableEq, Repr

/-- Outcome of `validateLicense`: a license, an error, or a Go runtime
crash (nil-pointer dereference). -/
inductive VOutcome where
  | ok (l : RedpandaLicense)
  | err (e : VErr)
  | crash
deriving DecidableEq

/-- Observable events of one `validateLicense` run, used to state in which
order the credential is decoded, verified and parsed. -/
inductive Ev where
  | payloadB64Decoded
  | sigB64Decoded
  | verifyOk
  | verifyFailed
  | jsonParsed
deriving DecidableEq, Repr

/-- `Service.validateLicense` from the source, instrumented with the list
of events that occurred, in order. Control flow step by step:
pem-decode the configured public key (the source ignores `pem.Decode`'s
second result and immediately reads `block.Bytes`, which crashes when no
PEM block was found), parse it as PKIX and assert RSA, trim the raw
credential, split on `.` requiring exactly two parts, base64-decode the
payload then the signature with the standard encoding, hash the still
base64-encoded payload, verify the RSA signature, and only then JSON
unmarshal the decoded payload. -/
def validateLicenseT (ext : Ext) (conf : Config) (license : List Nat) :
    VOutcome × List Ev :=
  match ext.pemDecode (conf.publicKeyPem ext.embeddedPem) with
  | none => (VOutcome.crash, [])
  | some block =>
    match ext.parsePKIX block.bytes with
    | Except.error _ => (VOutcome.err VErr.keyParse, [])
    | Except.ok ParsedKey.nonRSA => (VOutcome.err VErr.keyNotRSA, [])
    | Except.ok (ParsedKey.rsa publicKeyRSA) =>
      match splitOnByte 46 (trimSpace license) with
      | [licenseDataEncoded, signatureEncoded] =>
        match base64StdDecode licenseDataEncoded with
        | none => (VOutcome.err VErr.malformedDataB64, [])
        | some licenseData =>
          match base64StdDecode signatureEncoded with
          | none => (VOutcome.err VErr.malformedSigB64, [Ev.payloadB64Decoded])
          | some signature =>
            if ext.rsaVerify publicKeyRSA (ext.sha256 licenseDataEncoded)
                signature then
              match ext.jsonUnmarshal licenseData with
              | none =>
                (VOutcome.err VErr.decodeJSON,
                 [Ev.payloadB64Decoded, Ev.sigB64Decoded, Ev.verifyOk])
              | some rpLicense =>
                (VOutcome.ok rpLicense,
                 [Ev.payloadB64Decoded, Ev.sigB64Decoded, Ev.verifyOk,
                  Ev.jsonParsed])
            else
              (VOutcome.err VErr.sigInvalid,
               [Ev.payloadB64Decoded, Ev.sigB64Decoded, Ev.verifyFailed])
      | _ => (VOutcome.err VErr.malformedSplit, [])

/-- `Service.validateLicense`: the outcome alone. -/
def validateLicense (ext : Ext) (conf : Config) (license : List Nat) : VOutcome :=
  (validateLicenseT ext conf license).1

/-- Which read of `readLicense` failed. -/
inductive ReadErr where
  | explicitFileRead
  | defaultFileRead
deriving DecidableEq, Repr

/-- `Service.readLicense`, returning its result together with the list of
file paths it read, in order. Inline license first (no file read), else
the explicit file path (every read error is fatal), else the default path
(not-found yields absent, modelled as `ok []`; other errors are fatal). -/
def readLicense (conf : Config) (fs : FS) :
    Except ReadErr (List Nat) × List String :=
  if conf.License ≠ "" then
    (Except.ok (strBytes conf.License), [])
  else if conf.LicenseFilepath ≠ "" then
    (match fs conf.LicenseFilepath with
     | FileRes.content bs => Except.ok bs
     | FileRes.notFound => Except.error ReadErr.explicitFileRead
     | FileRes.otherErr => Except.error ReadErr.explicitFileRead,
     [conf.LicenseFilepath])
  else
    (match fs conf.defaultLicenseFilepath with
     | FileRes.content bs => Except.ok bs
     | FileRes.notFound => Except.ok []
     | FileRes.otherErr => Except.error ReadErr.defaultFileRead,
     [conf.defaultLicenseFilepath])

/-- Errors of `readAndValidateLicense`, one per `return` with an error. -/
inductive RErr where
  | readErr (e : ReadErr)
  | validateErr (e : VErr)
  | trialsUnsupported
  | expired
deriving DecidableEq, Repr

/-- Outcome of `readAndValidateLicense`. -/
inductive ROutcome where
  | ok (l : RedpandaLicense)
  | err (e : RErr)
  | crash
deriving DecidableEq

/-- The part of `readAndValidateLicense` between reading and the expiry
check: validate non-empty bytes and reject trials (`Type == 0`), or
synthesise the open-source fallback (`Type = -1`, expiry now + 10 years)
when no bytes were found. -/
def licenseOrFallback (ext : Ext) (conf : Config) (licenseBytes : List Nat)
    (now : Int) : ROutcome :=
  if licenseBytes.length > 0 then
    match validateLicense ext conf licenseBytes with
    | VOutcome.crash => ROutcome.crash
    | VOutcome.err e => ROutcome.err (RErr.validateErr e)
    | VOutcome.ok license =>
      if license.Type' = 0 then ROutcome.err RErr.trialsUnsupported
      else ROutcome.ok license
  else
    ROutcome.ok
      { Version := 0, Organization := "", Type' := -1,
        Expiry := now + 10 * 365 * 24 * 3600 }

/-- `Service.readAndValidateLicense`: read, validate or fall back, then
run `CheckExpiry` on whichever license emerged. -/
def readAndValidateLicense (ext : Ext) (conf : Config) (fs : FS) (now : Int) :
    ROutcome :=
  match (readLicense conf fs).1 with
  | Except.error e => ROutcome.err (RErr.readErr e)
  | Except.ok licenseBytes =>
    match licenseOrFallback ext conf licenseBytes now with
    | ROutcome.crash => ROutcome.crash
    | ROutcome.err e => ROutcome.err e
    | ROutcome.ok license =>
      match license.CheckExpiry now with
      | Except.error _ => ROutcome.err RErr.expired
      | Except.ok _ => ROutcome.ok license

/-- The zero value of `RedpandaLicense`, stored when loading fails. -/
def zeroLicense : RedpandaLicense :=
  { Version := 0, Organization := "", Type' := 0, Expiry := 0 }

/-- Outcome of `RegisterService`: construction completed with a stored
snapshot (and whether an error was logged), or crashed. -/
inductive RegOutcome where
  | completed (stored : RedpandaLicense) (loggedError : Bool)
  | crashed
deriving DecidableEq

/-- `RegisterService`: run `readAndValidateLicense` once; on error, log it
and store the zero-value license; always store the resulting license. -/
def RegisterService (ext : Ext) (conf : Config) (fs : FS) (now : Int) :
    RegOutcome :=
  match readAndValidateLicense ext conf fs now with
  | ROutcome.crash => RegOutcome.crashed
  | ROutcome.err _ => RegOutcome.completed zeroLicense true
  | ROutcome.ok l => RegOutcome.completed l false

/-- Concrete collaborator behaviour for tests: the public key parses as an
RSA key, every signature verification fails, JSON never parses. -/
def extReject : Ext :=
  { embeddedPem := [1], pemDecode := fun _ => some ⟨[0]⟩,
    parsePKIX := fun _ => Except.ok (ParsedKey.rsa ⟨1, 1⟩),
    sha256 := fun bs => bs, rsaVerify := fun _ _ _ => false,
    jsonUnmarshal := fun _ => none }

/-- Concrete collaborator behaviour where verification succeeds and the
payload unmarshals to `l`. -/
def extAccept (l : RedpandaLicense) : Ext :=
  { extReject with
    rsaVerify := fun _ _ _ => true
    jsonUnmarshal := fun _ => some l }

/-- Collaborators where `pem.Decode` finds no PEM block (returns nil). -/
def extNoPem : Ext := { extReject with pemDecode := fun _ => none }

/-- Collaborators where the PEM block holds DER that fails to parse. -/
def extBadDER : Ext := { extReject with parsePKIX := fun _ => Except.error () }

/-- Collaborators where the parsed public key is not an RSA key. -/
def extNonRSA : Ext :=
  { extReject with parsePKIX := fun _ => Except.ok ParsedKey.nonRSA }

/-- Configuration with only an inline license string. -/
def confInline (s : String) : Config := ⟨s, "", [], ""⟩

/-- Configuration with only an explicit license file path. -/
def confPath (p : String) : Config := ⟨"", p, [], ""⟩

/-- Empty configuration: no inline license, no explicit path. -/
def confEmpty : Config := ⟨"", "", [], ""⟩

/-- A filesystem with no files at all. -/
def fsEmpty : FS := fun _ => FileRes.notFound

/-- A filesystem where every read fails with a non-not-found error. -/
def fsErr : FS := fun _ => FileRes.otherErr

/-- An unexpired trial record (`Type == 0`). -/
def trialFuture : RedpandaLicense := ⟨1, "acme", 0, 99⟩

/-- An already-expired trial record. -/
def trialPast : RedpandaLicense := ⟨1, "beta", 0, -5⟩

/-- A non-trial record whose expiry has passed. -/
def expiredLic : RedpandaLicense := ⟨1, "acme", 2, -1⟩

/-- A byte that is outside the standard base64 alphabet, is not padding and
is not CR/LF makes four-character quantum decoding fail wherever it sits. -/
theorem b64DecodeGroups_none_of_mem (b : Nat) (hb : b64Val b = none)
    (h61 : b ≠ 61) : ∀ l : List Nat, b ∈ l → b64DecodeGroups l = none := by
  intro l
  induction l using b64DecodeGroups.induct <;> intro hm <;>
    simp_all [b64DecodeGroups, List.mem_cons] <;>
    (repeat' rcases hm with rfl | hm) <;> simp_all

/-- A byte outside the standard base64 alphabet that is not `=`, CR or LF
makes `base64.StdEncoding` decoding fail. -/
theorem base64StdDecode_none_of_mem (b : Nat) (bs : List Nat)
    (hmem : b ∈ bs) (hb : b64Val b = none) (h61 : b ≠ 61) (h10 : b ≠ 10)
    (h13 : b ≠ 13) : base64StdDecode bs = none := by
  apply b64DecodeGroups_none_of_mem b hb h61
  simp [List.mem_filter, hmem, h10, h13]

/-- C1 (counterexample): at a well-formed two-part credential whose
signature fails to verify, the payload segment is nonetheless
base64-decoded (the decode event is in the trace while verification never
succeeded), so the payload is not base64-decoded "only after RSA
verification passes". -/
theorem C1_counterexample :
    (validateLicenseT extReject (confInline "x") (strBytes "AA==.AA==")).1 =
      VOutcome.err VErr.sigInvalid ∧
    Ev.payloadB64Decoded ∈
      (validateLicenseT extReject (confInline "x") (strBytes "AA==.AA==")).2 ∧
    Ev.verifyOk ∉
      (validateLicenseT extReject (confInline "x") (strBytes "AA==.AA==")).2 := by
  decide

/-- C1 (amended): the payload is JSON-deserialized into an Entitlement
Record only after RSA verification passes — JSON parsing happens only in
runs where verification succeeded, whenever verification runs and fails
the result is exactly the SignatureInvalid error and no field of the
payload is parsed, and a SignatureInvalid result never coexists with
payload parsing.  (The base64 decoding of the payload, by contrast,
happens before verification.) -/
theorem C1_amended_parse_only_after_verify (ext : Ext) (conf : Config)
    (lic : List Nat) :
    (Ev.jsonParsed ∈ (validateLicenseT ext conf lic).2 →
      Ev.verifyOk ∈ (validateLicenseT ext conf lic).2) ∧
    (Ev.verifyFailed ∈ (validateLicenseT ext conf lic).2 →
      (validateLicenseT ext conf lic).1 = VOutcome.err VErr.sigInvalid ∧
      Ev.jsonParsed ∉ (validateLicenseT ext conf lic).2) ∧
    ((validateLicenseT ext conf lic).1 = VOutcome.err VErr.sigInvalid →
      Ev.jsonParsed ∉ (validateLicenseT ext conf lic).2) := by
  unfold validateLicenseT
  repeat' split
  all_goals simp_all

/-- C1 (amended, witness): the amended theorem applied at a concrete
failing-signature credential. -/
theorem C1_amended_witness :
    Ev.jsonParsed ∉
      (validateLicenseT extReject (confInline "x") (strBytes "AA==.AA==")).2 :=
  (C1_amended_parse_only_after_verify extReject (confInline "x")
    (strBytes "AA==.AA==")).2.2 (by decide)

/-- C2: whenever the locate/verify/policy pipeline fails with an error,
`RegisterService` still completes, logs the error, and stores the
zero-value license (type 0, expiry 0) in the snapshot. -/
theorem C2_failure_still_completes_with_zero (ext : Ext) (conf : Config)
    (fs : FS) (now : Int) (e : RErr)
    (h : readAndValidateLicense ext conf fs now = ROutcome.err e) :
    RegisterService ext conf fs now = RegOutcome.completed zeroLicense true := by
  unfold RegisterService
  rw [h]

/-- C2 (witness): a configuration pointing at a missing explicit file. -/
theorem C2_witness :
    RegisterService extReject (confPath "/missing") fsEmpty 0 =
      RegOutcome.completed zeroLicense true :=
  C2_failure_still_completes_with_zero extReject (confPath "/missing") fsEmpty 0
    (RErr.readErr ReadErr.explicitFileRead) (by decide)

/-- C3: with nothing configured and no file at the default path, loading
succeeds with the synthesized fallback record (type -1, expiry
now + 10 years); with an explicit file path that does not exist, loading
fails with the propagated read error and no fallback is synthesized. -/
theorem C3_absent_vs_broken (ext : Ext) (fs : FS) (now : Int)
    (confA confB : Config)
    (hA1 : confA.License = "") (hA2 : confA.LicenseFilepath = "")
    (hA3 : fs confA.defaultLicenseFilepath = FileRes.notFound)
    (hB1 : confB.License = "") (hB2 : confB.LicenseFilepath ≠ "")
    (hB3 : fs confB.LicenseFilepath = FileRes.notFound) :
    readAndValidateLicense ext confA fs now =
      ROutcome.ok { Version := 0, Organization := "", Type' := -1,
                    Expiry := now + 10 * 365 * 24 * 3600 } ∧
    readAndValidateLicense ext confB fs now =
      ROutcome.err (RErr.readErr ReadErr.explicitFileRead) := by
  constructor
  · have hr : (readLicense confA fs).1 = Except.ok [] := by
      unfold readLicense
      simp [hA1, hA2, hA3]
    have hne : ¬ (now + 10 * 365 * 24 * 3600 ≤ now) := by omega
    unfold readAndValidateLicense
    rw [hr]
    simp [licenseOrFallback, RedpandaLicense.CheckExpiry, hne]
  · have hr : (readLicense confB fs).1 = Except.error ReadErr.explicitFileRead := by
      unfold readLicense
      simp [hB1, hB2, hB3]
    unfold readAndValidateLicense
    rw [hr]

/-- C3 (witness): empty configuration versus an explicit missing path, on
an empty filesystem at time 0. -/
theorem C3_witness :
    readAndValidateLicense extReject confEmpty fsEmpty 0 =
      ROutcome.ok { Version := 0, Organization := "", Type' := -1,
                    Expiry := 0 + 10 * 365 * 24 * 3600 } ∧
    readAndValidateLicense extReject (confPath "/nofile") fsEmpty 0 =
      ROutcome.err (RErr.readErr ReadErr.explicitFileRead) :=
  C3_absent_vs_broken extReject fsEmpty 0 confEmpty (confPath "/nofile")
    rfl rfl rfl rfl (by decide) rfl

/-- C4: a non-empty inline license is used as-is and no file is read at
all; with an empty inline license and a non-empty explicit path, exactly
that path is read and the default path is never consulted. -/
theorem C4_source_priority (conf : Config) (fs : FS) :
    (conf.License ≠ "" →
      readLicense conf fs = (Except.ok (strBytes conf.License), [])) ∧
    (conf.License = "" → conf.LicenseFilepath ≠ "" →
      (readLicense conf fs).2 = [conf.LicenseFilepath]) := by
  unfold readLicense
  constructor
  · intro h
    rw [if_pos h]
  · intro h1 h2
    rw [if_neg (by simp [h1]), if_pos h2]

/-- C4 (witness): the priority theorem at concrete configurations over a
filesystem where every read would fail. -/
theorem C4_witness :
    readLicense (confInline "lic") fsErr = (Except.ok (strBytes "lic"), []) ∧
    (readLicense (confPath "/p") fsErr).2 = ["/p"] :=
  ⟨(C4_source_priority (confInline "lic") fsErr).1 (by decide),
   (C4_source_priority (confPath "/p") fsErr).2 rfl (by decide)⟩

/-- C5: when `pem.Decode` finds no PEM block it returns nil and
`validateLicense` dereferences `block.Bytes`, crashing instead of
returning a key-parse error; the other two key failure modes (DER that
fails to parse, a non-RSA key) do return key-parse errors as the claim
states. -/
theorem C5_absent_pem_block_crashes :
    validateLicense extNoPem (confInline "x") (strBytes "AA==.AA==") =
      VOutcome.crash ∧
    validateLicense extBadDER (confInline "x") (strBytes "AA==.AA==") =
      VOutcome.err VErr.keyParse ∧
    validateLicense extNonRSA (confInline "x") (strBytes "AA==.AA==") =
      VOutcome.err VErr.keyNotRSA := by
  exact ⟨rfl, rfl, rfl⟩

/-- C6: a credential that verifies and decodes to a record with type 0 is
always rejected as an unsupported trial, whatever its organization and
expiry, and the zero-value record is what gets published. -/
theorem C6_trial_rejected (ext : Ext) (conf : Config) (fs : FS) (now : Int)
    (bs : List Nat) (l : RedpandaLicense)
    (hr : (readLicense conf fs).1 = Except.ok bs) (hlen : bs.length > 0)
    (hv : validateLicense ext conf bs = VOutcome.ok l) (ht : l.Type' = 0) :
    readAndValidateLicense ext conf fs now = ROutcome.err RErr.trialsUnsupported ∧
    RegisterService ext conf fs now = RegOutcome.completed zeroLicense true := by
  have hlf : licenseOrFallback ext conf bs now =
      ROutcome.err RErr.trialsUnsupported := by
    unfold licenseOrFallback
    simp [hv, ht, hlen]
  have hmain : readAndValidateLicense ext conf fs now =
      ROutcome.err RErr.trialsUnsupported := by
    unfold readAndValidateLicense
    rw [hr]
    simp [hlf]
  exact ⟨hmain, by unfold RegisterService; rw [hmain]⟩

/-- C6 (witness): an unexpired trial record behind a verifying signature. -/
theorem C6_witness :
    readAndValidateLicense (extAccept trialFuture) (confInline "AA==.AA==")
      fsEmpty 0 = ROutcome.err RErr.trialsUnsupported ∧
    RegisterService (extAccept trialFuture) (confInline "AA==.AA==")
      fsEmpty 0 = RegOutcome.completed zeroLicense true :=
  C6_trial_rejected (extAccept trialFuture) (confInline "AA==.AA==") fsEmpty 0
    (strBytes "AA==.AA==") trialFuture rfl (by decide) (by decide)
    (by decide)

/-- C7: `CheckExpiry` fails exactly when `expiry <= now` (equality or past
fails, strictly future passes), and a load that fails the expiry check
publishes the zero-value record, never the expired one. -/
theorem C7_expiry_boundary (l : RedpandaLicense) (now : Int) (ext : Ext)
    (conf : Config) (fs : FS) :
    (l.CheckExpiry now = Except.error () ↔ l.Expiry ≤ now) ∧
    (l.CheckExpiry now = Except.ok () ↔ now < l.Expiry) ∧
    (readAndValidateLicense ext conf fs now = ROutcome.err RErr.expired →
      RegisterService ext conf fs now = RegOutcome.completed zeroLicense true) := by
  refine ⟨?_, ?_, ?_⟩
  · unfold RedpandaLicense.CheckExpiry
    split <;> simp_all
  · unfold RedpandaLicense.CheckExpiry
    split <;> simp_all
  · intro h
    unfold RegisterService
    rw [h]

/-- C7 (witness): a record expired at time 0 fails the check, and a load
of it publishes the zero-value record. -/
theorem C7_witness :
    expiredLic.CheckExpiry 0 = Except.error () ∧
    RegisterService (extAccept expiredLic) (confInline "AA==.AA==") fsEmpty 0 =
      RegOutcome.completed zeroLicense true :=
  ⟨(C7_expiry_boundary expiredLic 0 (extAccept expiredLic)
      (confInline "AA==.AA==") fsEmpty).1.mpr (by decide),
   (C7_expiry_boundary expiredLic 0 (extAccept expiredLic)
      (confInline "AA==.AA==") fsEmpty).2.2 (by decide)⟩

/-- C8 (counterexample): a payload segment valid in the base64url alphabet
but not in the standard one (it contains `-`) fails to decode, and an
otherwise well-formed credential carrying it is rejected with the
MalformedCredential decode error, even under a verifying key. -/
theorem C8_counterexample :
    base64StdDecode (strBytes "-A==") = none ∧
    validateLicense (extAccept trialFuture) (confInline "-A==.AA==")
      (strBytes "-A==.AA==") = VOutcome.err VErr.malformedDataB64 := by
  exact ⟨rfl, rfl⟩

/-- C8 (amended): the verifier decodes both segments with the standard
base64 alphabet only: a payload segment containing a URL-safe-specific
byte (`-` or `_`) makes validation fail with the MalformedCredential
decode error, while a payload segment that is valid standard base64
decodes successfully. -/
theorem C8_amended_std_alphabet_only (ext : Ext) (conf : Config)
    (lic payloadEnc sigEnc : List Nat) (blk : PemBlock) (k : RSAPub)
    (hpem : ext.pemDecode (conf.publicKeyPem ext.embeddedPem) = some blk)
    (hkey : ext.parsePKIX blk.bytes = Except.ok (ParsedKey.rsa k))
    (hsplit : splitOnByte 46 (trimSpace lic) = [payloadEnc, sigEnc]) :
    ((45 ∈ payloadEnc ∨ 95 ∈ payloadEnc) →
      validateLicense ext conf lic = VOutcome.err VErr.malformedDataB64) ∧
    (∀ d, base64StdDecode payloadEnc = some d →
      Ev.payloadB64Decoded ∈ (validateLicenseT ext conf lic).2) := by
  constructor
  · intro hmem
    have hdec : base64StdDecode payloadEnc = none := by
      rcases hmem with h | h
      · exact base64StdDecode_none_of_mem 45 payloadEnc h rfl (by decide)
          (by decide) (by decide)
      · exact base64StdDecode_none_of_mem 95 payloadEnc h rfl (by decide)
          (by decide) (by decide)
    unfold validateLicense validateLicenseT
    simp [hpem, hkey, hsplit, hdec]
  · intro d hd
    unfold validateLicenseT
    simp only [hpem, hkey, hsplit, hd]
    repeat' split
    all_goals simp_all

/-- C8 (amended, witness): the amended theorem at a concrete key setup,
applied to a payload carrying `-`. -/
theorem C8_amended_witness :
    validateLicense extReject (confInline "q") (strBytes "-A==.BB==") =
      VOutcome.err VErr.malformedDataB64 :=
  (C8_amended_std_alphabet_only extReject (confInline "q")
    (strBytes "-A==.BB==") (strBytes "-A==") (strBytes "BB==") ⟨[0]⟩ ⟨1, 1⟩
    rfl rfl (by decide)).1 (by decide)

/-- C9: a verified trial record that is also already expired is rejected
with the trial error, not the expired error — the trial check precedes the
expiry check. -/
theorem C9_trial_check_precedes_expiry (ext : Ext) (conf : Config) (fs : FS)
    (now : Int) (bs : List Nat) (l : RedpandaLicense)
    (hr : (readLicense conf fs).1 = Except.ok bs) (hlen : bs.length > 0)
    (hv : validateLicense ext conf bs = VOutcome.ok l) (ht : l.Type' = 0)
    (hexp : l.Expiry ≤ now) :
    readAndValidateLicense ext conf fs now = ROutcome.err RErr.trialsUnsupported ∧
    readAndValidateLicense ext conf fs now ≠ ROutcome.err RErr.expired := by
  have hlf : licenseOrFallback ext conf bs now =
      ROutcome.err RErr.trialsUnsupported := by
    unfold licenseOrFallback
    simp [hv, ht, hlen]
  have hmain : readAndValidateLicense ext conf fs now =
      ROutcome.err RErr.trialsUnsupported := by
    unfold readAndValidateLicense
    rw [hr]
    simp [hlf]
  exact ⟨hmain, by rw [hmain]; simp⟩

/-- C9 (witness): a trial record whose expiry already passed. -/
theorem C9_witness :
    readAndValidateLicense (extAccept trialPast) (confInline "AA==.AA==")
      fsEmpty 0 = ROutcome.err RErr.trialsUnsupported ∧
    readAndValidateLicense (extAccept trialPast) (confInline "AA==.AA==")
      fsEmpty 0 ≠ ROutcome.err RErr.expired :=
  C9_trial_check_precedes_expiry (extAccept trialPast) (confInline "AA==.AA==")
    fsEmpty 0 (strBytes "AA==.AA==") trialPast rfl (by decide)
    (by decide) (by decide) (by decide)

/-- C10: with nothing configured, a default-path read error other than
not-found is fatal: `readLicense` propagates it, the load fails, and the
zero-value record is published instead of the type -1 fallback. -/
theorem C10_default_other_error_fatal (ext : Ext) (conf : Config) (fs : FS)
    (now : Int) (h1 : conf.License = "") (h2 : conf.LicenseFilepath = "")
    (h3 : fs conf.defaultLicenseFilepath = FileRes.otherErr) :
    (readLicense conf fs).1 = Except.error ReadErr.defaultFileRead ∧
    readAndValidateLicense ext conf fs now =
      ROutcome.err (RErr.readErr ReadErr.defaultFileRead) ∧
    RegisterService ext conf fs now = RegOutcome.completed zeroLicense true := by
  have hr : (readLicense conf fs).1 = Except.error ReadErr.defaultFileRead := by
    unfold readLicense
    simp [h1, h2, h3]
  have hmain : readAndValidateLicense ext conf fs now =
      ROutcome.err (RErr.readErr ReadErr.defaultFileRead) := by
    unfold readAndValidateLicense
    rw [hr]
  exact ⟨hr, hmain, by unfold RegisterService; rw [hmain]⟩

/-- C10 (witness): an empty configuration over a filesystem whose every
read fails with a non-not-found error. -/
theorem C10_witness :
    (readLicense confEmpty fsErr).1 = Except.error ReadErr.defaultFileRead ∧
    readAndValidateLicense extReject confEmpty fsErr 0 =
      ROutcome.err (RErr.readErr ReadErr.defaultFileRead) ∧
    RegisterService extReject confEmpty fsErr 0 =
      RegOutcome.completed zeroLicense true :=
  C10_default_other_error_fatal extReject confEmpty fsErr 0 rfl rfl rfl

end License

